import Mathlib

/-!
Shallow embedding of the QuizGame Socket.IO server (the server section of the
repository source).  The mutable module-level variables become fields of
`GameState`; each inbound socket event handler becomes a Lean function
`GameState → GameState × List Emit`, where the emitted socket events are
collected in order.  Node timers are modelled by a Boolean `questionTimer`
(whether the per-question timeout is armed) and a counter `pendingAdvance`
(how many `setTimeout(sendQuestion, 1500)` callbacks are pending — the source
never stores or cancels these handles).  Timer expirations are separate step
functions (`timerFire`, `advanceFire`).
-/

/-- A quiz question, as in the server's `questions` array. -/
structure Question where
  id : Nat
  text : String
  options : List String
  answerIndex : Nat
deriving DecidableEq, Repr

/-- The server's hard-coded question catalog. -/
def questions : List Question :=
  [⟨1, "Which hook is used to manage state in a React function component?",
     ["useEffect", "useState", "useContext", "useRef"], 1⟩,
   ⟨2, "What prop is required to render a list with stable identity and avoid re-mounts?",
     ["id", "key", "index", "ref"], 1⟩,
   ⟨3, "Which hook runs after paint and is suitable for non-blocking effects?",
     ["useEffect", "useLayoutEffect", "useMemo", "useCallback"], 0⟩,
   ⟨4, "What should you avoid mutating directly to maintain predictability?",
     ["Props and state", "DOM nodes", "Context value", "All of the above"], 3⟩]

/-- `QUESTION_DURATION_MS = 15000`. -/
def QUESTION_DURATION_MS : Nat := 15000

/-- An entry of the `players` map: `{ nickname, score }`. -/
structure Player where
  nickname : String
  score : Nat
deriving DecidableEq, Repr

/-- The server's mutable state.  `players` is the `socketId -> Player` object
(association list in insertion order, keys kept distinct by the operations,
matching JS object key order); `answeredThisRound` is the `Set` of socket ids;
`questionTimer` is whether the per-question timeout is armed; `pendingAdvance`
counts the pending `setTimeout(sendQuestion, 1500)` callbacks, which the
source never tracks in a variable. -/
structure GameState where
  players : List (Nat × Player)
  currentQuestionIndex : Int
  acceptingAnswers : Bool
  questionTimer : Bool
  pendingAdvance : Nat
  answeredThisRound : Finset Nat
deriving DecidableEq

/-- The initial module-level state: `players = {}`, `currentQuestionIndex = -1`,
`acceptingAnswers = false`, no timers, empty answered set. -/
def initState : GameState :=
  { players := []
    currentQuestionIndex := -1
    acceptingAnswers := false
    questionTimer := false
    pendingAdvance := 0
    answeredThisRound := ∅ }

/-- Characters removed by JavaScript's `String.prototype.trim` (the
ECMAScript WhiteSpace and LineTerminator classes, on the code points that
can occur here). -/
def jsWhitespace (ch : Char) : Bool :=
  ch = ' ' || ch = '\t' || ch = '\n' || ch = '\r' ||
  ch.toNat = 11 || ch.toNat = 12 || ch.toNat = 0xa0 || ch.toNat = 0xfeff ||
  ch.toNat = 0x2028 || ch.toNat = 0x2029

/-- JavaScript `str.trim()`: strip leading and trailing whitespace. -/
def jsTrim (str : String) : String :=
  ⟨((str.toList.dropWhile jsWhitespace).reverse.dropWhile jsWhitespace).reverse⟩

/-- JavaScript `str.slice(0, 20)` (identical to taking 20 characters on the
basic-plane strings involved). -/
def jsSlice20 (str : String) : String :=
  ⟨str.toList.take 20⟩

/-- `players[id] = p`: overwrite in place if the key exists (JS objects keep
the position of an updated key), else append (new keys go last). -/
def setPlayer (ps : List (Nat × Player)) (c : Nat) (p : Player) : List (Nat × Player) :=
  if ps.any (fun e => e.1 == c) then
    ps.map (fun e => if e.1 == c then (c, p) else e)
  else ps ++ [(c, p)]

/-- `delete players[id]`. -/
def delPlayer (ps : List (Nat × Player)) (c : Nat) : List (Nat × Player) :=
  ps.filter (fun e => !(e.1 == c))

/-- `players[id]` as an `Option`. -/
def lookupPlayer (ps : List (Nat × Player)) (c : Nat) : Option Player :=
  (ps.find? (fun e => e.1 == c)).map (fun e => e.2)

/-- `activePlayerCount()`: `Object.keys(players).length`. -/
def activePlayerCount (ps : List (Nat × Player)) : Nat := ps.length

/-- Stable insertion step for the descending-score sort: an existing entry
stays ahead of the inserted one when its score is at least as large,
matching the stable JS `sort((a, b) => b.score - a.score)`. -/
def insertByScoreDesc (x : String × Nat) : List (String × Nat) → List (String × Nat)
  | [] => [x]
  | y :: ys => if x.2 ≤ y.2 then y :: insertByScoreDesc x ys else x :: y :: ys

/-- Stable sort by descending score. -/
def sortByScoreDesc : List (String × Nat) → List (String × Nat)
  | [] => []
  | x :: xs => insertByScoreDesc x (sortByScoreDesc xs)

/-- The leaderboard payload: `Object.values(players).map(...).sort(...)`. -/
def leaderboardOf (ps : List (Nat × Player)) : List (String × Nat) :=
  sortByScoreDesc (ps.map (fun e => (e.2.nickname, e.2.score)))

/-- One outbound socket event.  `...All` events go to the room, `...To` events
to a single connection. -/
inductive Emit where
  | errorMsgTo (conn : Nat) (msg : String)
  | quizStateAll (st : String)
  | quizStateTo (conn : Nat) (st : String)
  | leaderboardAll (board : List (String × Nat))
  | questionAll (id : Nat) (text : String) (options : List String)
      (index : Int) (total : Nat) (durationMs : Nat)
  | answerResultAll (questionId : Nat) (correctIndex : Nat) (summary : String)
  | answerResultTo (conn : Nat) (questionId : Nat) (correctIndex : Nat)
      (youWereCorrect : Bool) (saved : Bool)
deriving DecidableEq, Repr

/-- `broadcastLeaderboard()`. -/
def broadcastLeaderboard (ps : List (Nat × Player)) : Emit :=
  .leaderboardAll (leaderboardOf ps)

/-- `questions[i]` as an `Option`: JS indexing yields `undefined` outside
`0 <= i < questions.length`. -/
def questionAt (i : Int) : Option Question :=
  if h : 0 ≤ i ∧ i < (questions.length : Int) then
    some (questions.get ⟨i.toNat, by omega⟩)
  else none

/-- `resetGame({ resetScores })`: optionally zero scores, reset the index and
accepting flag, `clearTimeout(questionTimer)`, clear the answered set.  The
pending 1500 ms advance callbacks are untouched — the source has no handle
on them. -/
def resetGame (resetScores : Bool) (s : GameState) : GameState :=
  { s with
    players := if resetScores then s.players.map (fun e => (e.1, { e.2 with score := 0 }))
               else s.players
    currentQuestionIndex := -1
    acceptingAnswers := false
    questionTimer := false
    answeredThisRound := ∅ }

/-- `endQuestionAndMaybeNext(summary)`: emit the round result and leaderboard,
then `setTimeout(sendQuestion, 1500)` (recorded by bumping `pendingAdvance`).
When `currentQuestionIndex` is out of bounds, `questions[currentQuestionIndex]`
is `undefined` and reading `q.id` throws, so nothing further happens: the
`none` branch models that aborted run. -/
def endQuestionAndMaybeNext (summary : String) (s : GameState) : GameState × List Emit :=
  match questionAt s.currentQuestionIndex with
  | none => (s, [])
  | some q =>
      ({ s with pendingAdvance := s.pendingAdvance + 1 },
       [.answerResultAll q.id q.answerIndex summary, broadcastLeaderboard s.players])

/-- `sendQuestion()`: advance the index, clear the answered set; past the end
of the catalog broadcast `finished` and stop accepting; otherwise broadcast
the question, set `acceptingAnswers = true` and arm the per-question timer
(`clearTimeout` then `setTimeout`). -/
def sendQuestion (s : GameState) : GameState × List Emit :=
  let s1 : GameState :=
    { s with currentQuestionIndex := s.currentQuestionIndex + 1,
             answeredThisRound := ∅ }
  if (questions.length : Int) ≤ s1.currentQuestionIndex then
    ({ s1 with acceptingAnswers := false },
     [.quizStateAll "finished", broadcastLeaderboard s1.players])
  else
    match questionAt s1.currentQuestionIndex with
    | none => (s1, [])
    | some q =>
        ({ s1 with acceptingAnswers := true, questionTimer := true },
         [.questionAll q.id q.text q.options s1.currentQuestionIndex
            questions.length QUESTION_DURATION_MS])

/-- The `joinQuiz` handler.  A missing or non-string nickname also takes the
error branch in the source; over string payloads the falsy check `!nickname`
holds exactly for the empty string. -/
def joinQuiz (c : Nat) (nickname : String) (s : GameState) : GameState × List Emit :=
  if nickname = "" then (s, [.errorMsgTo c "Nickname is required"])
  else
    let s1 : GameState :=
      { s with players := setPlayer s.players c ⟨jsSlice20 (jsTrim nickname), 0⟩ }
    let st : String :=
      if 0 ≤ s1.currentQuestionIndex ∧ s1.currentQuestionIndex < (questions.length : Int)
      then "running" else "lobby"
    (s1, [.quizStateTo c st, broadcastLeaderboard s1.players])

/-- The `startQuiz` handler. -/
def startQuiz (s : GameState) : GameState × List Emit :=
  if s.currentQuestionIndex ≠ -1 then (s, [])
  else
    ((sendQuestion s).1, .quizStateAll "running" :: (sendQuestion s).2)

/-- The `restartQuiz` handler. -/
def restartQuiz (resetScores : Bool) (s : GameState) : GameState × List Emit :=
  let s1 := resetGame resetScores s
  ((sendQuestion s1).1, .quizStateAll "running" :: (sendQuestion s1).2)

/-- The `submitAnswer` handler. -/
def submitAnswer (c : Nat) (questionId : Nat) (answerIndex : Nat) (s : GameState) :
    GameState × List Emit :=
  if s.acceptingAnswers = false then (s, [])
  else
    match questionAt s.currentQuestionIndex with
    | none => (s, [])
    | some q =>
        if q.id ≠ questionId then (s, [])
        else if c ∈ s.answeredThisRound then (s, [])
        else
          let s1 : GameState := { s with answeredThisRound := insert c s.answeredThisRound }
          match lookupPlayer s1.players c with
          | none => (s1, [])
          | some player =>
              let correct : Bool := answerIndex == q.answerIndex
              let s2 : GameState :=
                if correct then
                  { s1 with players :=
                      setPlayer s1.players c ⟨player.nickname, player.score + 10⟩ }
                else s1
              let es : List Emit :=
                [.answerResultTo c questionId q.answerIndex correct true,
                 broadcastLeaderboard s2.players]
              if 0 < activePlayerCount s2.players ∧
                 activePlayerCount s2.players ≤ s2.answeredThisRound.card then
                let s3 : GameState := { s2 with acceptingAnswers := false, questionTimer := false }
                ((endQuestionAndMaybeNext "All players answered" s3).1,
                 es ++ (endQuestionAndMaybeNext "All players answered" s3).2)
              else (s2, es)

/-- The `nextQuestion` handler (host skip). -/
def nextQuestion (s : GameState) : GameState × List Emit :=
  if s.currentQuestionIndex = -1 then (s, [])
  else
    endQuestionAndMaybeNext "Advanced by host"
      { s with acceptingAnswers := false, questionTimer := false }

/-- The `getLeaderboard` handler. -/
def getLeaderboard (s : GameState) : GameState × List Emit :=
  (s, [broadcastLeaderboard s.players])

/-- The `leaveQuiz` handler. -/
def leaveQuiz (c : Nat) (s : GameState) : GameState × List Emit :=
  let s1 : GameState := { s with players := delPlayer s.players c }
  (s1, [broadcastLeaderboard s1.players])

/-- The `disconnect` handler: remove the player, then force a round end when
`acceptingAnswers && answeredThisRound.size >= total` (the source has no
`total > 0` guard here), else just rebroadcast the leaderboard. -/
def disconnect (c : Nat) (s : GameState) : GameState × List Emit :=
  let s1 : GameState := { s with players := delPlayer s.players c }
  if s1.acceptingAnswers = true ∧
     activePlayerCount s1.players ≤ s1.answeredThisRound.card then
    endQuestionAndMaybeNext "All remaining players answered"
      { s1 with acceptingAnswers := false, questionTimer := false }
  else (s1, [broadcastLeaderboard s1.players])

/-- The per-question timeout firing (only possible while armed): the handle is
spent, the callback sets `acceptingAnswers = false` and ends the question. -/
def timerFire (s : GameState) : GameState × List Emit :=
  endQuestionAndMaybeNext "Time up!"
    { s with questionTimer := false, acceptingAnswers := false }

/-- A pending `setTimeout(sendQuestion, 1500)` callback firing (only possible
while one is pending). -/
def advanceFire (s : GameState) : GameState × List Emit :=
  sendQuestion { s with pendingAdvance := s.pendingAdvance - 1 }

/-- The session status as the server derives it for a joiner:
`running` when a question index is in bounds, else `lobby`. -/
def statusOf (s : GameState) : String :=
  if 0 ≤ s.currentQuestionIndex ∧ s.currentQuestionIndex < (questions.length : Int)
  then "running" else "lobby"

/-- One server step: any inbound event with any payload, or an armed timer
firing, or a pending advance callback firing. -/
inductive Step : GameState → GameState → Prop where
  | join (c : Nat) (n : String) (s : GameState) : Step s (joinQuiz c n s).1
  | start (s : GameState) : Step s (startQuiz s).1
  | restart (b : Bool) (s : GameState) : Step s (restartQuiz b s).1
  | submit (c qid ai : Nat) (s : GameState) : Step s (submitAnswer c qid ai s).1
  | next (s : GameState) : Step s (nextQuestion s).1
  | getLb (s : GameState) : Step s (getLeaderboard s).1
  | leave (c : Nat) (s : GameState) : Step s (leaveQuiz c s).1
  | disc (c : Nat) (s : GameState) : Step s (disconnect c s).1
  | timer (s : GameState) : s.questionTimer = true → Step s (timerFire s).1
  | advance (s : GameState) : 0 < s.pendingAdvance → Step s (advanceFire s).1

/-- States reachable from the initial server state. -/
def Reachable (s : GameState) : Prop :=
  Relation.ReflTransGen Step initState s

/-- The claimed invariant: answers are accepted only while the derived status
is `running` and the question index is within catalog bounds. -/
def answersInv (s : GameState) : Prop :=
  s.acceptingAnswers = true →
    0 ≤ s.currentQuestionIndex ∧ s.currentQuestionIndex < (questions.length : Int) ∧
    statusOf s = "running"

/-- The bounds part of `answersInv` (the status part is derived from it). -/
def boundsInv (s : GameState) : Prop :=
  s.acceptingAnswers = true →
    0 ≤ s.currentQuestionIndex ∧ s.currentQuestionIndex < (questions.length : Int)

/-- The first question of the catalog. -/
def q0 : Question :=
  ⟨1, "Which hook is used to manage state in a React function component?",
   ["useEffect", "useState", "useContext", "useRef"], 1⟩

/-- Scenario state: connection 1 has joined with nickname `a`. -/
def stateJoined : GameState := (joinQuiz 1 "a" initState).1

/-- Scenario state: the quiz was then started; question 1 is active and
accepting answers, player 1 has not answered. -/
def stateRound1 : GameState := (startQuiz stateJoined).1

/-- Scenario state: player 1 then answered question 1 correctly (score 10;
being the only player, the round also ended early). -/
def stateScored : GameState := (submitAnswer 1 1 1 stateRound1).1

/-- Scenario state: the host instead skipped question 1, leaving one pending
1500 ms advance callback. -/
def stateAfterSkip : GameState := (nextQuestion stateRound1).1

/-- Scenario state: an unregistered connection 2 instead submitted an answer
during question 1. -/
def stateUnreg : GameState := (submitAnswer 2 1 0 stateRound1).1

/-- The player map after an accepted, registered submission (score bumped by
10 exactly when the chosen option index equals the question's answer index). -/
def submitPlayers (c ai : Nat) (s : GameState) (q : Question) (p : Player) :
    List (Nat × Player) :=
  if ai == q.answerIndex then setPlayer s.players c ⟨p.nickname, p.score + 10⟩
  else s.players

/-- The state after an accepted, registered submission, before the early-end
check. -/
def submitMidState (c ai : Nat) (s : GameState) (q : Question) (p : Player) : GameState :=
  { s with players := submitPlayers c ai s q p,
           answeredThisRound := insert c s.answeredThisRound }

/-- The state handed to `endQuestionAndMaybeNext` when the submission
triggers the early round end. -/
def submitEndState (c ai : Nat) (s : GameState) (q : Question) (p : Player) : GameState :=
  { submitMidState c ai s q p with acceptingAnswers := false, questionTimer := false }

/-- The two events an accepted, registered submission emits before any early
round end. -/
def submitEmits (c qid ai : Nat) (s : GameState) (q : Question) (p : Player) : List Emit :=
  [.answerResultTo c qid q.answerIndex (ai == q.answerIndex) true,
   broadcastLeaderboard (submitPlayers c ai s q p)]

/-! Helper lemmas about the player map and the internal helpers. -/

theorem lookupPlayer_cons_of_ne (e : Nat × Player) (es : List (Nat × Player)) (c : Nat)
    (he : ¬ e.1 = c) : lookupPlayer (e :: es) c = lookupPlayer es c := by
  unfold lookupPlayer
  rw [List.find?_cons_of_neg _ (by simp [he])]

theorem lookupPlayer_cons_self (c : Nat) (p : Player) (es : List (Nat × Player)) :
    lookupPlayer ((c, p) :: es) c = some p := by
  unfold lookupPlayer
  rw [List.find?_cons_of_pos _ (by simp)]
  rfl

theorem lookup_map_set_self (ps : List (Nat × Player)) (c : Nat) (p : Player)
    (h : ps.any (fun e => e.1 == c) = true) :
    lookupPlayer (ps.map (fun e => if e.1 == c then (c, p) else e)) c = some p := by
  induction ps with
  | nil => simp at h
  | cons e es ih =>
    by_cases he : e.1 = c
    · rw [List.map_cons, if_pos (by simp [he])]
      exact lookupPlayer_cons_self c p _
    · rw [List.map_cons, if_neg (by simp [he])]
      rw [lookupPlayer_cons_of_ne e _ c he]
      apply ih
      simpa [he] using h

theorem lookup_append_self (ps : List (Nat × Player)) (c : Nat) (p : Player)
    (h : ps.any (fun e => e.1 == c) = false) :
    lookupPlayer (ps ++ [(c, p)]) c = some p := by
  induction ps with
  | nil => simpa using lookupPlayer_cons_self c p []
  | cons e es ih =>
    simp only [List.any_cons, Bool.or_eq_false_iff] at h
    rw [List.cons_append, lookupPlayer_cons_of_ne e _ c (by simpa using h.1)]
    exact ih h.2

theorem lookup_setPlayer_self (ps : List (Nat × Player)) (c : Nat) (p : Player) :
    lookupPlayer (setPlayer ps c p) c = some p := by
  unfold setPlayer
  by_cases hany : ps.any (fun e => e.1 == c) = true
  · rw [if_pos hany]
    exact lookup_map_set_self ps c p hany
  · rw [if_neg hany]
    exact lookup_append_self ps c p (Bool.eq_false_iff.mpr hany)

theorem lookupPlayer_some_any (ps : List (Nat × Player)) (c : Nat) (p : Player)
    (h : lookupPlayer ps c = some p) : ps.any (fun e => e.1 == c) = true := by
  unfold lookupPlayer at h
  cases hf : ps.find? (fun e => e.1 == c) with
  | none => rw [hf] at h; simp at h
  | some e =>
    have h1 := List.find?_some hf
    have h2 := List.mem_of_find?_eq_some hf
    exact List.any_eq_true.mpr ⟨e, h2, by simpa using h1⟩

theorem setPlayer_length (ps : List (Nat × Player)) (c : Nat) (p p' : Player)
    (h : lookupPlayer ps c = some p') : (setPlayer ps c p).length = ps.length := by
  simp [setPlayer, lookupPlayer_some_any ps c p' h]

theorem endQ_state (m : String) (s : GameState) :
    (endQuestionAndMaybeNext m s).1.acceptingAnswers = s.acceptingAnswers ∧
    (endQuestionAndMaybeNext m s).1.currentQuestionIndex = s.currentQuestionIndex ∧
    (endQuestionAndMaybeNext m s).1.players = s.players ∧
    (endQuestionAndMaybeNext m s).1.answeredThisRound = s.answeredThisRound ∧
    (endQuestionAndMaybeNext m s).1.questionTimer = s.questionTimer := by
  unfold endQuestionAndMaybeNext
  cases questionAt s.currentQuestionIndex <;> simp

theorem sendQuestion_idx (s : GameState) :
    (sendQuestion s).1.currentQuestionIndex = s.currentQuestionIndex + 1 := by
  simp only [sendQuestion]
  split
  · rfl
  · split <;> rfl

theorem sendQuestion_players (s : GameState) :
    (sendQuestion s).1.players = s.players := by
  simp only [sendQuestion]
  split
  · rfl
  · split <;> rfl

theorem sendQuestion_answered (s : GameState) :
    (sendQuestion s).1.answeredThisRound = ∅ := by
  simp only [sendQuestion]
  split
  · rfl
  · split <;> rfl

theorem sendQuestion_pending (s : GameState) :
    (sendQuestion s).1.pendingAdvance = s.pendingAdvance := by
  simp only [sendQuestion]
  split
  · rfl
  · split <;> rfl

theorem questionAt_some_bounds (i : Int) (q : Question)
    (h : questionAt i = some q) : 0 ≤ i ∧ i < (questions.length : Int) := by
  unfold questionAt at h
  split at h
  · next hb => exact hb
  · simp at h

theorem questionAt_isSome_of_bounds (i : Int) (h1 : 0 ≤ i)
    (h2 : i < (questions.length : Int)) : ∃ q, questionAt i = some q := by
  unfold questionAt
  rw [dif_pos ⟨h1, h2⟩]
  exact ⟨_, rfl⟩

theorem sendQuestion_boundsInv (s : GameState) (h : boundsInv s) :
    boundsInv (sendQuestion s).1 := by
  simp only [sendQuestion]
  split
  · intro hacc
    simp at hacc
  · next hlt =>
    cases hq : questionAt (s.currentQuestionIndex + 1) with
    | none =>
      intro hacc
      obtain ⟨h1, h2⟩ := h hacc
      obtain ⟨q, hq'⟩ := questionAt_isSome_of_bounds (s.currentQuestionIndex + 1)
        (by omega) (by omega)
      rw [hq'] at hq
      cases hq
    | some q =>
      intro _
      have hb := questionAt_some_bounds _ _ hq
      exact ⟨hb.1, hb.2⟩

theorem boundsInv_of_not_accepting (s : GameState) (h : s.acceptingAnswers = false) :
    boundsInv s := by
  intro hacc
  rw [h] at hacc
  cases hacc

theorem step_boundsInv {s s' : GameState} (hs : Step s s') (h : boundsInv s) :
    boundsInv s' := by
  cases hs with
  | join c n s =>
    unfold joinQuiz
    split
    · exact h
    · exact h
  | start s =>
    unfold startQuiz
    split
    · exact h
    · exact sendQuestion_boundsInv s h
  | restart b s =>
    exact sendQuestion_boundsInv (resetGame b s)
      (boundsInv_of_not_accepting _ rfl)
  | submit c qid ai s =>
    unfold submitAnswer
    split
    · exact h
    · split
      · exact h
      · split
        · exact h
        · split
          · exact h
          · dsimp only
            split
            · exact h
            · split
              · split
                · exact boundsInv_of_not_accepting _
                    ((endQ_state "All players answered" _).1.trans rfl)
                · exact h
              · split
                · exact boundsInv_of_not_accepting _
                    ((endQ_state "All players answered" _).1.trans rfl)
                · exact h
  | next s =>
    unfold nextQuestion
    split
    · exact h
    · exact boundsInv_of_not_accepting _
        ((endQ_state "Advanced by host" _).1.trans rfl)
  | getLb s => exact h
  | leave c s => exact h
  | disc c s =>
    unfold disconnect
    dsimp only
    split
    · exact boundsInv_of_not_accepting _
        ((endQ_state "All remaining players answered" _).1.trans rfl)
    · exact h
  | timer s ht =>
    unfold timerFire
    exact boundsInv_of_not_accepting _ ((endQ_state "Time up!" _).1.trans rfl)
  | advance s hp =>
    exact sendQuestion_boundsInv _ h

theorem reachable_boundsInv (s : GameState) (h : Reachable s) : boundsInv s := by
  induction h with
  | refl => intro hacc; simp [initState] at hacc
  | tail _ hstep ih => exact step_boundsInv hstep ih

/-! Claim theorems. -/

/-- C7: in every reachable server state, `acceptingAnswers` is true only while
the derived session status is `running` and `currentQuestionIndex` is within
the bounds of the question catalog; every handler and timer firing (the steps
of `Step`) preserves this invariant. -/
theorem C7_accepting_only_while_running_in_bounds (s : GameState) (h : Reachable s) :
    answersInv s := by
  have hb := reachable_boundsInv s h
  intro hacc
  obtain ⟨h1, h2⟩ := hb hacc
  exact ⟨h1, h2, by simp [statusOf, h1, h2]⟩

/-- Witness for C7 at a concrete reachable state (one player joined, quiz
started, question 1 accepting answers). -/
theorem C7_witness : answersInv stateRound1 :=
  C7_accepting_only_while_running_in_bounds stateRound1
    (Relation.ReflTransGen.tail
      (Relation.ReflTransGen.tail Relation.ReflTransGen.refl (Step.join 1 "a" initState))
      (Step.start stateJoined))

/-- C8: `startQuiz` with `currentQuestionIndex != -1` is a complete no-op
(state unchanged, nothing emitted); with `currentQuestionIndex == -1` it
broadcasts the `running` status and then behaves exactly as `sendQuestion`
(the Advance step). -/
theorem C8_start_noop_when_started (s : GameState) :
    (s.currentQuestionIndex ≠ -1 → startQuiz s = (s, [])) ∧
    (s.currentQuestionIndex = -1 →
      startQuiz s = ((sendQuestion s).1, .quizStateAll "running" :: (sendQuestion s).2)) := by
  constructor
  · intro hne
    simp [startQuiz, hne]
  · intro he
    simp [startQuiz, he]

/-- Witness for C8: a started state (index 0) ignores `startQuiz`; the fresh
state starts. -/
theorem C8_witness :
    startQuiz stateRound1 = (stateRound1, []) ∧
    startQuiz initState = ((sendQuestion initState).1,
      .quizStateAll "running" :: (sendQuestion initState).2) :=
  ⟨(C8_start_noop_when_started stateRound1).1 (by decide),
   (C8_start_noop_when_started initState).2 (by decide)⟩

/-- C5: `restartQuiz b` is exactly `startQuiz` run on the reset state
(`resetGame b`), whose timer is cancelled, whose answer record is cleared and
whose index is -1; the restarted session is at question index 0; with
`b = true` every player's score is 0, with `b = false` the player map is
exactly the old one. -/
theorem C5_restart_behaviour (s : GameState) (b : Bool) :
    restartQuiz b s = startQuiz (resetGame b s) ∧
    (resetGame b s).questionTimer = false ∧
    (resetGame b s).answeredThisRound = ∅ ∧
    (resetGame b s).currentQuestionIndex = -1 ∧
    (restartQuiz b s).1.currentQuestionIndex = 0 ∧
    (b = true → ∀ e ∈ (restartQuiz b s).1.players, e.2.score = 0) ∧
    (b = false → (restartQuiz b s).1.players = s.players) := by
  refine ⟨?_, rfl, rfl, rfl, ?_, ?_, ?_⟩
  · simp only [restartQuiz, startQuiz]
    rw [if_neg (by simp [resetGame])]
  · have h := sendQuestion_idx (resetGame b s)
    simp only [restartQuiz]
    rw [h]
    rfl
  · intro hb
    intro e he
    have hp := sendQuestion_players (resetGame b s)
    simp only [restartQuiz] at he
    rw [hp] at he
    simp only [resetGame, hb, if_true] at he
    obtain ⟨a, _, rfl⟩ := List.mem_map.mp he
    rfl
  · intro hb
    have hp := sendQuestion_players (resetGame b s)
    simp only [restartQuiz]
    rw [hp]
    simp [resetGame, hb]

/-- Witness for C5 at a state whose single player has score 10. -/
theorem C5_witness :
    lookupPlayer stateScored.players 1 = some ⟨"a", 10⟩ ∧
    (restartQuiz false stateScored).1.players = stateScored.players ∧
    (restartQuiz true stateScored).1.currentQuestionIndex = 0 :=
  ⟨by decide,
   (C5_restart_behaviour stateScored false).2.2.2.2.2.2 rfl,
   (C5_restart_behaviour stateScored true).2.2.2.2.1⟩

theorem submit_noop_of_answered (c qid ai : Nat) (s : GameState)
    (h : s.acceptingAnswers = false ∨ c ∈ s.answeredThisRound) :
    submitAnswer c qid ai s = (s, []) := by
  unfold submitAnswer
  rcases h with h | h
  · rw [if_pos h]
  · by_cases hacc : s.acceptingAnswers = false
    · rw [if_pos hacc]
    · rw [if_neg hacc]
      cases hq : questionAt s.currentQuestionIndex with
      | none => rfl
      | some q =>
        dsimp only
        by_cases hid : q.id ≠ qid
        · rw [if_pos hid]
        · rw [if_neg hid, if_pos h]

theorem submit_registered_eq (c qid ai : Nat) (s : GameState) (q : Question) (p : Player)
    (hacc : s.acceptingAnswers = true)
    (hq : questionAt s.currentQuestionIndex = some q)
    (hid : q.id = qid)
    (hnew : c ∉ s.answeredThisRound)
    (hp : lookupPlayer s.players c = some p) :
    submitAnswer c qid ai s =
      (if 0 < activePlayerCount (submitPlayers c ai s q p) ∧
          activePlayerCount (submitPlayers c ai s q p) ≤ (insert c s.answeredThisRound).card
       then ((endQuestionAndMaybeNext "All players answered" (submitEndState c ai s q p)).1,
             submitEmits c qid ai s q p ++
               (endQuestionAndMaybeNext "All players answered" (submitEndState c ai s q p)).2)
       else (submitMidState c ai s q p, submitEmits c qid ai s q p)) := by
  unfold submitAnswer
  rw [if_neg (by simp [hacc]), hq]
  dsimp only
  rw [if_neg (by simp [hid]), if_neg hnew]
  rw [hp]
  dsimp only
  cases hc : ai == q.answerIndex with
  | true =>
    simp only [submitPlayers, submitMidState, submitEndState, submitEmits, hc, if_true]
  | false =>
    simp only [submitPlayers, submitMidState, submitEndState, submitEmits, hc,
      Bool.false_eq_true, if_false]

theorem submitPlayers_length (c ai : Nat) (s : GameState) (q : Question) (p : Player)
    (hp : lookupPlayer s.players c = some p) :
    activePlayerCount (submitPlayers c ai s q p) = activePlayerCount s.players := by
  unfold submitPlayers activePlayerCount
  split
  · exact setPlayer_length _ _ _ _ hp
  · rfl

/-- C2: an accepted correct submission from a registered player stores the
score bumped by exactly 10 and records the connection; every further
`submitAnswer` by the same connection for the same active question is a
complete no-op (state unchanged, nothing emitted). -/
theorem C2_correct_answer_scores_once (c qid ai : Nat) (s : GameState)
    (q : Question) (p : Player)
    (hacc : s.acceptingAnswers = true)
    (hq : questionAt s.currentQuestionIndex = some q)
    (hid : q.id = qid)
    (hnew : c ∉ s.answeredThisRound)
    (hp : lookupPlayer s.players c = some p)
    (hcorrect : ai = q.answerIndex) :
    lookupPlayer (submitAnswer c qid ai s).1.players c = some ⟨p.nickname, p.score + 10⟩ ∧
    c ∈ (submitAnswer c qid ai s).1.answeredThisRound ∧
    ∀ ai2, submitAnswer c qid ai2 (submitAnswer c qid ai s).1 =
      ((submitAnswer c qid ai s).1, []) := by
  have hchar := submit_registered_eq c qid ai s q p hacc hq hid hnew hp
  have hpl : submitPlayers c ai s q p = setPlayer s.players c ⟨p.nickname, p.score + 10⟩ := by
    unfold submitPlayers
    rw [if_pos (by simp [hcorrect])]
  rw [hchar]
  by_cases hend : 0 < activePlayerCount (submitPlayers c ai s q p) ∧
      activePlayerCount (submitPlayers c ai s q p) ≤ (insert c s.answeredThisRound).card
  · rw [if_pos hend]
    have hE := endQ_state "All players answered" (submitEndState c ai s q p)
    refine ⟨?_, ?_, ?_⟩
    · rw [hE.2.2.1]
      show lookupPlayer (submitPlayers c ai s q p) c = _
      rw [hpl]
      exact lookup_setPlayer_self s.players c _
    · rw [hE.2.2.2.1]
      exact Finset.mem_insert_self c s.answeredThisRound
    · intro ai2
      exact submit_noop_of_answered c qid ai2 _ (Or.inl (hE.1.trans rfl))
  · rw [if_neg hend]
    refine ⟨?_, ?_, ?_⟩
    · show lookupPlayer (submitPlayers c ai s q p) c = _
      rw [hpl]
      exact lookup_setPlayer_self s.players c _
    · exact Finset.mem_insert_self c s.answeredThisRound
    · intro ai2
      exact submit_noop_of_answered c qid ai2 _
        (Or.inr (Finset.mem_insert_self c s.answeredThisRound))

/-- Witness for C2: player 1 answers question 1 correctly in the one-player
round; score becomes 10, the id is recorded, and a repeat submission (with a
different option) is a no-op. -/
theorem C2_witness :
    lookupPlayer (submitAnswer 1 1 1 stateRound1).1.players 1 = some ⟨"a", 10⟩ ∧
    1 ∈ (submitAnswer 1 1 1 stateRound1).1.answeredThisRound ∧
    submitAnswer 1 1 2 (submitAnswer 1 1 1 stateRound1).1 =
      ((submitAnswer 1 1 1 stateRound1).1, []) := by
  have h := C2_correct_answer_scores_once 1 1 1 stateRound1 q0 ⟨"a", 0⟩
    (by decide) (by decide) rfl (by decide) (by decide) rfl
  exact ⟨h.1, h.2.1, h.2.2 2⟩

/-- C9: an accepted submission from a connection with no player entry is
still recorded in the answered set before the missing-player check aborts:
the state changes only by inserting the connection id (raising the count the
early-end check reads by one), and nothing is emitted. -/
theorem C9_unregistered_still_recorded (c qid ai : Nat) (s : GameState) (q : Question)
    (hacc : s.acceptingAnswers = true)
    (hq : questionAt s.currentQuestionIndex = some q)
    (hid : q.id = qid)
    (hnew : c ∉ s.answeredThisRound)
    (hp : lookupPlayer s.players c = none) :
    submitAnswer c qid ai s =
      ({ s with answeredThisRound := insert c s.answeredThisRound }, []) ∧
    (submitAnswer c qid ai s).1.answeredThisRound.card = s.answeredThisRound.card + 1 := by
  have heq : submitAnswer c qid ai s =
      ({ s with answeredThisRound := insert c s.answeredThisRound }, []) := by
    unfold submitAnswer
    rw [if_neg (by simp [hacc]), hq]
    dsimp only
    rw [if_neg (by simp [hid]), if_neg hnew]
    rw [hp]
  refine ⟨heq, ?_⟩
  rw [heq]
  exact Finset.card_insert_of_not_mem hnew

/-- Witness for C9: unregistered connection 2 submits during question 1. -/
theorem C9_witness :
    submitAnswer 2 1 0 stateRound1 =
      ({ stateRound1 with answeredThisRound := insert 2 stateRound1.answeredThisRound }, []) ∧
    (submitAnswer 2 1 0 stateRound1).1.answeredThisRound.card =
      stateRound1.answeredThisRound.card + 1 :=
  C9_unregistered_still_recorded 2 1 0 stateRound1 q0
    (by decide) (by decide) rfl (by decide) (by decide)

/-- C10: a join from an already-registered connection overwrites the entry
with a fresh one whose score is 0, whatever the session status and previous
score. -/
theorem C10_rejoin_resets_score (c : Nat) (n : String) (s : GameState) (p : Player)
    (hn : ¬ n = "") (hp : lookupPlayer s.players c = some p) :
    lookupPlayer (joinQuiz c n s).1.players c = some ⟨jsSlice20 (jsTrim n), 0⟩ := by
  simp only [joinQuiz, if_neg hn]
  exact lookup_setPlayer_self s.players c _

/-- Witness for C10: player 1 has score 10 mid-session and rejoins as `bob`;
the stored entry is score 0. -/
theorem C10_witness :
    lookupPlayer stateScored.players 1 = some ⟨"a", 10⟩ ∧
    lookupPlayer (joinQuiz 1 "bob" stateScored).1.players 1 =
      some ⟨jsSlice20 (jsTrim "bob"), 0⟩ :=
  ⟨by decide, C10_rejoin_resets_score 1 "bob" stateScored ⟨"a", 10⟩ (by decide) (by decide)⟩

/-- C1 counterexample: the sole connected player disconnects while
`acceptingAnswers` is true with nobody having answered (0 of 0 remaining);
the handler does NOT merely rebroadcast the leaderboard — it forces the round
end (`answerResult` with summary `All remaining players answered` is
broadcast and `acceptingAnswers` is cleared), because the source compares
`answeredThisRound.size >= total` without a `total > 0` guard. -/
theorem C1_counterexample :
    stateRound1.acceptingAnswers = true ∧
    stateRound1.answeredThisRound = ∅ ∧
    activePlayerCount (delPlayer stateRound1.players 1) = 0 ∧
    (disconnect 1 stateRound1).1.acceptingAnswers = false ∧
    (disconnect 1 stateRound1).2 =
      [.answerResultAll 1 1 "All remaining players answered", .leaderboardAll []] := by
  decide

/-- C1 amended: `disconnect` removes the player and then forces
`EndRound("All remaining players answered")` exactly when `acceptingAnswers`
is true and the answered count is at least the remaining active player count
— including vacuously when no active players remain; only otherwise does it
merely rebroadcast the leaderboard. -/
theorem C1_disconnect_end_condition (c : Nat) (s : GameState) :
    (s.acceptingAnswers = true ∧
        activePlayerCount (delPlayer s.players c) ≤ s.answeredThisRound.card →
      disconnect c s = endQuestionAndMaybeNext "All remaining players answered"
        { s with
          players := delPlayer s.players c
          acceptingAnswers := false
          questionTimer := false }) ∧
    (¬ (s.acceptingAnswers = true ∧
        activePlayerCount (delPlayer s.players c) ≤ s.answeredThisRound.card) →
      disconnect c s = ({ s with players := delPlayer s.players c },
        [broadcastLeaderboard (delPlayer s.players c)])) := by
  constructor
  · intro h
    unfold disconnect
    dsimp only
    rw [if_pos h]
  · intro h
    unfold disconnect
    dsimp only
    rw [if_neg h]

/-- Witness for C1 (amended): both branches at concrete states. -/
theorem C1_witness :
    disconnect 1 stateRound1 = endQuestionAndMaybeNext "All remaining players answered"
      { stateRound1 with
        players := delPlayer stateRound1.players 1
        acceptingAnswers := false
        questionTimer := false } ∧
    disconnect 1 initState = ({ initState with players := delPlayer initState.players 1 },
      [broadcastLeaderboard (delPlayer initState.players 1)]) :=
  ⟨(C1_disconnect_end_condition 1 stateRound1).1 (by decide),
   (C1_disconnect_end_condition 1 initState).2 (by decide)⟩

/-- C3 counterexample: after the host skips question 1, a 1500 ms advance
callback is pending; restarting the session does NOT cancel it (the handle
is never stored), and when the stale callback fires after the restart it
advances the restarted session from question index 0 straight to 1. -/
theorem C3_counterexample :
    stateAfterSkip.pendingAdvance = 1 ∧
    (restartQuiz true stateAfterSkip).1.pendingAdvance = 1 ∧
    (restartQuiz true stateAfterSkip).1.currentQuestionIndex = 0 ∧
    (advanceFire (restartQuiz true stateAfterSkip).1).1.currentQuestionIndex = 1 := by
  decide

/-- C3 amended: resetting (and hence restarting) and the host skip cancel the
pending per-question timer, but the post-round advance pause callback is
never tracked or cancelled: a restart leaves `pendingAdvance` unchanged, the
restarted session is at question index 0, and a stale pending advance that
fires afterwards moves the index to 1. -/
theorem C3_only_question_timer_cancelled (s : GameState) (b : Bool) :
    (resetGame b s).questionTimer = false ∧
    (s.currentQuestionIndex ≠ -1 → (nextQuestion s).1.questionTimer = false) ∧
    (restartQuiz b s).1.pendingAdvance = s.pendingAdvance ∧
    (restartQuiz b s).1.currentQuestionIndex = 0 ∧
    (advanceFire (restartQuiz b s).1).1.currentQuestionIndex = 1 := by
  have h0 : (restartQuiz b s).1.currentQuestionIndex = 0 := by
    simp only [restartQuiz]
    rw [sendQuestion_idx]
    rfl
  refine ⟨rfl, ?_, ?_, h0, ?_⟩
  · intro hne
    unfold nextQuestion
    rw [if_neg hne]
    exact (endQ_state "Advanced by host" _).2.2.2.2.trans rfl
  · simp only [restartQuiz]
    rw [sendQuestion_pending]
    rfl
  · unfold advanceFire
    rw [sendQuestion_idx]
    dsimp only
    rw [h0]
    decide

/-- Witness for C3 (amended) at the concrete skipped-round state. -/
theorem C3_witness :
    (nextQuestion stateRound1).1.questionTimer = false ∧
    (advanceFire (restartQuiz true stateAfterSkip).1).1.currentQuestionIndex = 1 :=
  ⟨(C3_only_question_timer_cancelled stateRound1 true).2.1 (by decide),
   (C3_only_question_timer_cancelled stateAfterSkip true).2.2.2.2⟩

/-- C4 counterexample: a whitespace-only nickname is NOT rejected — the falsy
check `!nickname` only catches the empty string, so `" "` creates a player
entry whose stored nickname is the empty string, and no error event is
emitted. -/
theorem C4_counterexample :
    (joinQuiz 1 " " initState).1.players = [(1, ⟨"", 0⟩)] ∧
    (joinQuiz 1 " " initState).2 = [.quizStateTo 1 "lobby", .leaderboardAll [("", 0)]] := by
  decide

/-- C4 amended: a join is rejected (error to the originating connection only,
no state change) exactly when the nickname is the empty string (or missing /
not a string); every other nickname — whitespace-only included — is accepted,
stored trimmed and truncated to 20 units (which yields the empty string for
whitespace-only input), and only the status unicast plus the leaderboard
broadcast are emitted. -/
theorem C4_join_validation (c : Nat) (n : String) (s : GameState) :
    (n = "" → joinQuiz c n s = (s, [.errorMsgTo c "Nickname is required"])) ∧
    (¬ n = "" →
      lookupPlayer (joinQuiz c n s).1.players c = some ⟨jsSlice20 (jsTrim n), 0⟩ ∧
      (joinQuiz c n s).2 = [.quizStateTo c (statusOf s),
        broadcastLeaderboard (setPlayer s.players c ⟨jsSlice20 (jsTrim n), 0⟩)]) := by
  constructor
  · intro he
    simp [joinQuiz, he]
  · intro hne
    constructor
    · simp only [joinQuiz, if_neg hne]
      exact lookup_setPlayer_self s.players c _
    · simp only [joinQuiz, if_neg hne, statusOf]

/-- Witness for C4 (amended): the empty nickname errors; a padded nickname is
stored trimmed. -/
theorem C4_witness :
    joinQuiz 1 "" initState = (initState, [.errorMsgTo 1 "Nickname is required"]) ∧
    lookupPlayer (joinQuiz 1 " x " initState).1.players 1 =
      some ⟨jsSlice20 (jsTrim " x "), 0⟩ :=
  ⟨(C4_join_validation 1 "" initState).1 rfl,
   ((C4_join_validation 1 " x " initState).2 (by decide)).1⟩

/-- C6 counterexample: an unregistered connection 2 was recorded in the
answered set; when the single registered player 1 then submits, the answered
count (2) and the active player count (1) are UNEQUAL, yet the round still
ends early with `All players answered`, because the source compares with
`>=` rather than equality. -/
theorem C6_counterexample :
    lookupPlayer stateUnreg.players 2 = none ∧
    (submitAnswer 1 1 1 stateUnreg).1.answeredThisRound.card = 2 ∧
    activePlayerCount (submitAnswer 1 1 1 stateUnreg).1.players = 1 ∧
    (submitAnswer 1 1 1 stateUnreg).1.acceptingAnswers = false ∧
    Emit.answerResultAll 1 1 "All players answered" ∈ (submitAnswer 1 1 1 stateUnreg).2 := by
  decide

/-- C6 amended: an accepted submission by a registered player ends the round
early with `All players answered` exactly when the active player count is
positive and AT MOST the answered count after recording this submission (the
answered count can exceed the player count, since the answered set may hold
unregistered or departed connections); otherwise the round does not end from
that submission. -/
theorem C6_early_end_iff (c qid ai : Nat) (s : GameState) (q : Question) (p : Player)
    (hacc : s.acceptingAnswers = true)
    (hq : questionAt s.currentQuestionIndex = some q)
    (hid : q.id = qid)
    (hnew : c ∉ s.answeredThisRound)
    (hp : lookupPlayer s.players c = some p) :
    ((submitAnswer c qid ai s).1.acceptingAnswers = false ∧
      Emit.answerResultAll q.id q.answerIndex "All players answered" ∈
        (submitAnswer c qid ai s).2)
    ↔ (0 < activePlayerCount s.players ∧
        activePlayerCount s.players ≤ (insert c s.answeredThisRound).card) := by
  have hchar := submit_registered_eq c qid ai s q p hacc hq hid hnew hp
  have hlen := submitPlayers_length c ai s q p hp
  rw [hchar, hlen]
  by_cases hend : 0 < activePlayerCount s.players ∧
      activePlayerCount s.players ≤ (insert c s.answeredThisRound).card
  · rw [if_pos hend]
    have hE := endQ_state "All players answered" (submitEndState c ai s q p)
    have hemit : (endQuestionAndMaybeNext "All players answered"
        (submitEndState c ai s q p)).2 =
        [.answerResultAll q.id q.answerIndex "All players answered",
         broadcastLeaderboard (submitEndState c ai s q p).players] := by
      unfold endQuestionAndMaybeNext
      have hidx : (submitEndState c ai s q p).currentQuestionIndex =
          s.currentQuestionIndex := rfl
      rw [hidx, hq]
    constructor
    · intro _
      exact hend
    · intro _
      refine ⟨hE.1.trans rfl, ?_⟩
      rw [hemit]
      exact List.mem_append_right _ (List.mem_cons_self _ _)
  · rw [if_neg hend]
    constructor
    · intro hcontra
      exfalso
      have hmid : (submitMidState c ai s q p).acceptingAnswers = true := hacc
      rw [hcontra.1] at hmid
      cases hmid
    · intro hr
      exact absurd hr hend

/-- Witness for C6 (amended): the sole registered player answers; 1 player,
1 answered, so the round ends early. -/
theorem C6_witness :
    (submitAnswer 1 1 1 stateRound1).1.acceptingAnswers = false ∧
    Emit.answerResultAll q0.id q0.answerIndex "All players answered" ∈
      (submitAnswer 1 1 1 stateRound1).2 :=
  (C6_early_end_iff 1 1 1 stateRound1 q0 ⟨"a", 0⟩
    (by decide) (by decide) rfl (by decide) (by decide)).mpr (by decide)
